import Mathlib

/-!
# MoltScraper: shallow embedding and verification

A shallow embedding of the MoltScraper repository (`scraper.py`, `models.py`,
`config.py`) in Lean 4, together with theorems settling the frozen claims
about the shuffle-driven crawl controller, the relative-time normalizer,
the post-identity hash and the dedup invariants.

Modelling conventions:
* Python's naive `datetime` values are order-isomorphic to their microsecond
  count since 0001-01-01T00:00:00 (every naive day is exactly 86400 seconds,
  and day boundaries sit at multiples of 86400000000 microseconds), so a
  datetime is embedded as that integer (`DT`).  The representable range is
  `[0, 3652059 * 86400000000)` (datetime.min .. datetime.max); arithmetic
  leaving the range raises OverflowError in Python, which the embedding
  returns as an explicit error.
* Fallible Python code is embedded in `Except PyErr`; `None` becomes `none`.
* DOM access through BeautifulSoup is abstracted: a parsed page or feed card
  is a structure whose fields hold exactly the texts/attributes the source
  queries out of the soup (each field is documented with the query it
  stands for).  The HTML-to-structure step itself is external library
  behaviour and is part of the environment.
* Module-level mutable state (`FETCHED_URL_CACHE`, `self.seen_posts`) is
  threaded explicitly; sets of strings are lists with membership, and the
  source only ever adds an element after a negative membership test, so
  `List.cons` coincides with `set.add`.
* `asyncio` sleeps, logging and header rotation have no observable effect on
  the extracted data and are dropped; the crawl loop is sequential in the
  source (every fetch is awaited in order), so no concurrency modelling is
  needed.
-/

namespace Moltbook

/-- Python exception classes that the embedded code can raise.  All of them
derive from `Exception`, hence are caught by the blanket `except Exception`
handlers in `scraper.py`. -/
inductive PyErr where
  | timeoutError
  | transportError
  | typeError
  | valueError
  | unboundLocalError
  | overflowError
  deriving DecidableEq, Repr

/-! ## Python string/number helpers -/

/-- Python truthiness of an `Optional[str]`: `None` and `""` are falsy. -/
def pyTruthyOptStr : Option String → Bool
  | none => false
  | some s => !s.isEmpty

/-- Python `a or b` for strings (`b` chosen when `a` is empty). -/
def pyOrStr (a b : String) : String :=
  if a = "" then b else a

/-- Numeric value of a list of decimal digit characters. -/
def digitsVal (cs : List Char) : Nat :=
  cs.foldl (fun a c => 10 * a + (c.toNat - 48)) 0

/-- Python `str.isdigit()` for the ASCII strings this scraper handles:
true iff the string is nonempty and all characters are decimal digits. -/
def pyIsdigit (s : String) : Bool :=
  !s.isEmpty && s.data.all Char.isDigit

/-- Python `int(s)` on the digit-only strings produced upstream (the scraper
only ever feeds `int` strings filtered through `str.isdigit`); a string that
is not a nonempty digit run raises `ValueError`, embedded as `none`. -/
def pyInt (s : String) : Option Nat :=
  if pyIsdigit s then some (digitsVal s.data) else none

/-- Does a character list contain `needle` as a contiguous sublist?
(Python's `needle in text`.) -/
def listContainsSub (needle : List Char) : List Char → Bool
  | [] => needle.isEmpty
  | c :: rest => needle.isPrefixOf (c :: rest) || listContainsSub needle rest

/-- Python `needle in text` for strings. -/
def pyInStr (needle text : String) : Bool :=
  listContainsSub needle.data text.data

/-- Python whitespace test used by `str.split()`. -/
def pyIsSpace (c : Char) : Bool :=
  c = ' ' || c = '\t' || c = '\n' || c = '\r' || c = '\x0b' || c = '\x0c'

/-- Core of `str.split()`: split a character list on whitespace runs,
producing no empty parts. -/
def splitWsChars : List Char → List Char → List String
  | acc, [] => if acc.isEmpty then [] else [String.mk acc.reverse]
  | acc, c :: rest =>
      if pyIsSpace c then
        if acc.isEmpty then splitWsChars [] rest
        else String.mk acc.reverse :: splitWsChars [] rest
      else splitWsChars (c :: acc) rest

/-- Python `str.split()` with no argument: whitespace runs, empties dropped. -/
def pySplitWs (s : String) : List String :=
  splitWsChars [] s.data

/-- Python `str.lower()` on the ASCII text this site serves: lower-case
each character. -/
def pyLower (s : String) : String :=
  String.mk (s.data.map Char.toLower)

/-- Python `str.strip()` with no argument: drop leading and trailing
whitespace. -/
def pyStrip (s : String) : String :=
  String.mk (((s.data.dropWhile pyIsSpace).reverse.dropWhile pyIsSpace).reverse)

/-- Python `s.startswith(p)`. -/
def pyStartsWith (s p : String) : Bool :=
  p.data.isPrefixOf s.data

/-- Python `s.replace(pat, repl)` on character lists: replace every
non-overlapping occurrence, scanning left to right.  (The empty-pattern
case never arises in this code base and is left as the identity.) -/
def replaceList : List Char → List Char → List Char → List Char
  | _, _, [] => []
  | [], _, l => l
  | p :: ps, repl, c :: rest =>
      if (p :: ps).isPrefixOf (c :: rest) then
        repl ++ replaceList (p :: ps) repl ((c :: rest).drop (p :: ps).length)
      else c :: replaceList (p :: ps) repl rest
termination_by _ _ l => l.length
decreasing_by
  all_goals simp [List.length_drop]
  all_goals omega

/-- Python slicing `s[:n]` (by characters, as Python slices by code
points). -/
def pySlice (s : String) (n : Nat) : String :=
  String.mk (s.data.take n)

/-- Python slicing `s[n:]`. -/
def pyDrop (s : String) (n : Nat) : String :=
  String.mk (s.data.drop n)

/-- Python `s.replace(pat, repl)`. -/
def pyReplace (s pat repl : String) : String :=
  String.mk (replaceList pat.data repl.data s.data)

/-- Characters of Python's regex class `\w` on the ASCII text this site
serves: letters, digits and underscore. -/
def isWordChar (c : Char) : Bool :=
  c.isAlpha || c.isDigit || c = '_'

/-- Scanner behind `re.findall(r"#(\w+)", text)` (and the `@` variant):
walk the text; at each marker character take the maximal `\w` run that
follows; emit it when nonempty; continue after the run.  This matches
`findall`'s left-to-right non-overlapping semantics because marker, `\w`
run and the rest never overlap a later match's marker. -/
def markerRuns (marker : Char) : List Char → List String
  | [] => []
  | c :: rest =>
      if c = marker then
        let run := rest.takeWhile isWordChar
        if run.isEmpty then markerRuns marker rest
        else String.mk run :: markerRuns marker (rest.drop run.length)
      else markerRuns marker rest
termination_by l => l.length
decreasing_by
  all_goals simp_all [List.length_drop]
  all_goals omega

/-! ## Naive datetime model -/

/-- A Python naive `datetime`, as its microsecond count since
0001-01-01T00:00:00 (see the module conventions above). -/
structure DT where
  us : Int
  deriving DecidableEq, Repr

/-- Microsecond count of `datetime.max` = 9999-12-31T23:59:59.999999
(ordinal 3652059, so `3652059 * 86400000000 - 1`). -/
def maxDTus : Int := 315537897599999999

/-- Is an integer inside the `datetime`-representable window? -/
def DTinRange (n : Int) : Prop := 0 ≤ n ∧ n ≤ maxDTus

instance (n : Int) : Decidable (DTinRange n) := by
  unfold DTinRange; infer_instance

/-- `dt - timedelta(microseconds=delta)` for a nonnegative delta: Python
raises `OverflowError` when the result leaves the representable window
(or already when the `timedelta` itself overflows, which for the deltas
built here implies the result is far below `datetime.min`, hence the
single range test is equivalent). -/
def dtSubUs (d : DT) (delta : Int) : Except PyErr DT :=
  if DTinRange (d.us - delta) then .ok ⟨d.us - delta⟩ else .error .overflowError

/-- `dt.replace(microsecond=0)`: zeroing the microsecond field floors the
linear value to the second, because all higher fields contribute multiples
of 10^6 microseconds. -/
def replaceUs0 (d : DT) : DT := ⟨d.us - d.us % 1000000⟩

/-- `dt.replace(second=0, microsecond=0)`: floor to the minute. -/
def replaceSecUs0 (d : DT) : DT := ⟨d.us - d.us % 60000000⟩

/-- `dt.replace(minute=0, second=0, microsecond=0)`: floor to the hour. -/
def replaceMinSecUs0 (d : DT) : DT := ⟨d.us - d.us % 3600000000⟩

/-- `dt.replace(hour=0, minute=0, second=0, microsecond=0)`: floor to the
day (day boundaries are multiples of 86400000000 since the epoch is a
midnight). -/
def replaceHour0 (d : DT) : DT := ⟨d.us - d.us % 86400000000⟩

/-- `dt.replace(day=0, ...)`: the `day` field of a datetime must be at least
1, so this call raises `ValueError` for every datetime. -/
def replaceDay0 (_ : DT) : Except PyErr DT := .error .valueError

/-- Left-pad a decimal rendering with zeros to `w` characters. -/
def padNum (w n : Nat) : String :=
  let s := Nat.repr n
  String.mk (List.replicate (w - s.length) '0') ++ s

/-- Gregorian calendar date of day number `n` counted from 0001-01-01
(civil-from-days; all divisions are on nonnegative numbers). -/
def civilFromDays (n : Nat) : Nat × Nat × Nat :=
  let z := n + 306
  let era := z / 146097
  let doe := z % 146097
  let yoe := (doe - doe / 1460 + doe / 36524 - doe / 146096) / 365
  let y := yoe + era * 400
  let doy := doe - (365 * yoe + yoe / 4 - yoe / 100)
  let mp := (5 * doy + 2) / 153
  let d := doy - (153 * mp + 2) / 5 + 1
  let m := if mp < 10 then mp + 3 else mp - 9
  (if m ≤ 2 then y + 1 else y, m, d)

/-- Python `str(datetime)`: `YYYY-MM-DD HH:MM:SS`, with `.ffffff` appended
when the microsecond field is nonzero. -/
def strDT (d : DT) : String :=
  let t := d.us.toNat
  let days := t / 86400000000
  let rem := t % 86400000000
  let (y, m, day) := civilFromDays days
  let hh := rem / 3600000000
  let mm := rem % 3600000000 / 60000000
  let ss := rem % 60000000 / 1000000
  let usf := rem % 1000000
  padNum 4 y ++ "-" ++ padNum 2 m ++ "-" ++ padNum 2 day ++ " " ++
    padNum 2 hh ++ ":" ++ padNum 2 mm ++ ":" ++ padNum 2 ss ++
    (if usf = 0 then "" else "." ++ padNum 6 usf)

/-- Python `f"{x}"` for an `Optional[datetime]`: `"None"` or `str(dt)`. -/
def pyStrOptDT : Option DT → String
  | none => "None"
  | some d => strDT d

/-- Python `f"{x}"` for an `Optional[str]`: `"None"` or the string itself. -/
def pyStrOptStr : Option String → String
  | none => "None"
  | some s => s

/-! ## MD5 (`hashlib.md5`), on `Nat` with explicit mod-2^32 arithmetic -/

/-- The 64 MD5 sine-derived round constants
(`floor(abs(sin(i+1)) * 2^32)`). -/
def md5K : List Nat :=
  [3614090360, 3905402710, 606105819, 3250441966, 4118548399, 1200080426,
   2821735955, 4249261313, 1770035416, 2336552879, 4294925233, 2304563134,
   1804603682, 4254626195, 2792965006, 1236535329, 4129170786, 3225465664,
   643717713, 3921069994, 3593408605, 38016083, 3634488961, 3889429448,
   568446438, 3275163606, 4107603335, 1163531501, 2850285829, 4243563512,
   1735328473, 2368359562, 4294588738, 2272392833, 1839030562, 4259657740,
   2763975236, 1272893353, 4139469664, 3200236656, 681279174, 3936430074,
   3572445317, 76029189, 3654602809, 3873151461, 530742520, 3299628645,
   4096336452, 1126891415, 2878612391, 4237533241, 1700485571, 2399980690,
   4293915773, 2240044497, 1873313359, 4264355552, 2734768916, 1309151649,
   4149444226, 3174756917, 718787259, 3951481745]

/-- The per-round left-rotation amounts. -/
def md5S : List Nat :=
  [7, 12, 17, 22, 7, 12, 17, 22, 7, 12, 17, 22, 7, 12, 17, 22,
   5, 9, 14, 20, 5, 9, 14, 20, 5, 9, 14, 20, 5, 9, 14, 20,
   4, 11, 16, 23, 4, 11, 16, 23, 4, 11, 16, 23, 4, 11, 16, 23,
   6, 10, 15, 21, 6, 10, 15, 21, 6, 10, 15, 21, 6, 10, 15, 21]

/-- Reduce modulo 2^32. -/
def u32 (n : Nat) : Nat := n % 4294967296

/-- 32-bit bitwise complement (the argument is below 2^32). -/
def bnot32 (n : Nat) : Nat := 4294967295 - n

/-- 32-bit left rotation: low bits move up (mod 2^32), high bits wrap to
the bottom; the two parts occupy disjoint bit ranges, so `+` is their OR. -/
def rotl32 (x s : Nat) : Nat := u32 (x * 2 ^ s) + x / 2 ^ (32 - s)

/-- Little-endian byte rendering of `n`, `k` bytes wide. -/
def toLEBytes : Nat → Nat → List Nat
  | 0, _ => []
  | k + 1, n => n % 256 :: toLEBytes k (n / 256)

/-- Split a byte list into the sixteen little-endian 32-bit message words
of one 512-bit block. -/
def md5Words : Nat → List Nat → List Nat
  | 0, _ => []
  | k + 1, bs =>
      (bs.take 4).foldr (fun b acc => acc * 256 + b) 0 :: md5Words k (bs.drop 4)

/-- One MD5 round applied to the state `(a, b, c, d)` with message words
`M`, at round index `i`. -/
def md5Step (M : List Nat) (st : Nat × Nat × Nat × Nat) (i : Nat) :
    Nat × Nat × Nat × Nat :=
  let (a, b, c, d) := st
  let f :=
    if i < 16 then (b &&& c) ||| (bnot32 b &&& d)
    else if i < 32 then (d &&& b) ||| (bnot32 d &&& c)
    else if i < 48 then b ^^^ c ^^^ d
    else c ^^^ (b ||| bnot32 d)
  let g :=
    if i < 16 then i
    else if i < 32 then (5 * i + 1) % 16
    else if i < 48 then (3 * i + 5) % 16
    else (7 * i) % 16
  let f := u32 (f + a + md5K.getD i 0 + M.getD g 0)
  (d, u32 (b + rotl32 f (md5S.getD i 0)), b, c)

/-- Absorb one 64-byte block into the MD5 state. -/
def md5Block (st : Nat × Nat × Nat × Nat) (block : List Nat) :
    Nat × Nat × Nat × Nat :=
  let M := md5Words 16 block
  let (a, b, c, d) := (List.range 64).foldl (md5Step M) st
  (u32 (st.1 + a), u32 (st.2.1 + b), u32 (st.2.2.1 + c), u32 (st.2.2.2 + d))

/-- Split a padded message into 64-byte blocks (structurally recursive on
a fuel equal to the list length, so that the kernel can evaluate it; each
step consumes at least one element, so the fuel never runs out). -/
def md5ChunksGo : Nat → List Nat → List (List Nat)
  | _, [] => []
  | 0, _ => []
  | fuel + 1, b :: bs => ((b :: bs).take 64) :: md5ChunksGo fuel ((b :: bs).drop 64)

/-- Split a padded message into 64-byte blocks. -/
def md5Chunks (l : List Nat) : List (List Nat) :=
  md5ChunksGo l.length l

/-- MD5 padding: `0x80`, zeros to 56 mod 64, then the bit length as eight
little-endian bytes. -/
def md5Pad (msg : List Nat) : List Nat :=
  msg ++ [128] ++ List.replicate ((119 - msg.length % 64) % 64) 0 ++
    toLEBytes 8 (msg.length * 8 % 18446744073709551616)

/-- The 16 digest bytes of a byte message. -/
def md5Bytes (msg : List Nat) : List Nat :=
  let (a, b, c, d) :=
    (md5Chunks (md5Pad msg)).foldl md5Block
      (1732584193, 4023233417, 2562383102, 271733878)
  toLEBytes 4 a ++ toLEBytes 4 b ++ toLEBytes 4 c ++ toLEBytes 4 d

/-- Lower-case hex character of a value below 16. -/
def hexChar (n : Nat) : Char :=
  Char.ofNat (if n < 10 then 48 + n else 87 + n)

/-- UTF-8 encoding of one character (`str.encode()`). -/
def utf8Char (c : Char) : List Nat :=
  let n := c.toNat
  if n < 128 then [n]
  else if n < 2048 then [192 + n / 64, 128 + n % 64]
  else if n < 65536 then [224 + n / 4096, 128 + n / 64 % 64, 128 + n % 64]
  else [240 + n / 262144, 128 + n / 4096 % 64, 128 + n / 64 % 64, 128 + n % 64]

/-- `hashlib.md5(s.encode()).hexdigest()`. -/
def md5Hex (s : String) : String :=
  String.mk ((md5Bytes (s.data.flatMap utf8Char)).flatMap
    (fun b => [hexChar (b / 16), hexChar (b % 16)]))

/-! ## Configuration constants (`config.py`, module head of `scraper.py`) -/

/-- `Config.BASE_URL`. -/
def BASE_URL : String := "https://www.moltbook.com"

/-- `HTTP_CONCURRENCY_LIMIT = getattr(Config, "HTTP_CONCURRENCY", 3)`;
`Config` has no such attribute, so the default applies.  The semaphore built
from it is never acquired anywhere in the source. -/
def HTTP_CONCURRENCY_LIMIT : Nat := 3

/-- `BASE_BACKOFF = getattr(Config, "RATE_LIMIT_DELAY", 2.0)` =
`Config.RATE_LIMIT_DELAY` = 5.0 seconds.  No fetch path ever reads this
constant. -/
def BASE_BACKOFF : ℚ := 5

/-- `MAX_BACKOFF = 60.0` seconds.  No fetch path ever reads this constant. -/
def MAX_BACKOFF : ℚ := 60

/-- `Config.MAX_SHUFFLES`. -/
def MAX_SHUFFLES : Nat := 1

/-- `Config.MAX_POSTS` (overridable from the command line). -/
def MAX_POSTS : Int := 20

/-! ## Data model (`models.py`) -/

/-- The `Comment` dataclass. -/
structure Comment where
  comment_id : String
  author : String
  content : String
  timestamp : Option DT
  timestamp_precision : String
  timestamp_raw : String
  likes : Int
  deriving DecidableEq, Repr, Inhabited

/-- The fields handed to the `Post(...)` construction in
`parse_post_data`.  models.py's `Post` dataclass declares every one of
them EXCEPT `submolt`; the constructor call therefore raises
`TypeError: unexpected keyword argument` at runtime — `construct_post`
below models that.  The structure records the keyword arguments as passed,
which is what the emission would consist of. -/
structure Post where
  post_id : String
  author : String
  author_id : String
  submolt : Option String
  title : String
  content : String
  timestamp : Option DT
  timestamp_precision : String
  timestamp_raw : String
  likes : Nat
  comments_count : Nat
  total_comments_count : Option Nat
  comments : List Comment
  post_type : String
  media_urls : List String
  hashtags : List String
  mentions : List String
  url : String
  scraped_at : Option DT
  deriving DecidableEq, Repr, Inhabited

/-- `Post.__init__` as generated by the dataclass in models.py: it has no
`submolt` parameter, while the call site always passes one, so every
construction raises `TypeError` regardless of the argument values. -/
def construct_post (_ : Post) : Except PyErr Post := .error .typeError

/-! ## Time normalization (`_extract_timestamp`, `_parse_relative_time`) -/

/-- `_extract_timestamp(time_number, time_letter)`: turn a digit string and
a unit string into an absolute timestamp, flooring to the unit's
precision.  The `w` branch reads `dt` before assigning it
(`UnboundLocalError`) and the `y` branch calls `replace(day=0, ...)`
(`ValueError`); both land in the blanket `except`, which returns
`(None, "unknown", f"{time_number}{time_letter} ago")`. -/
def extract_timestamp (time_number time_letter : Option String) (now : DT) :
    Option DT × String × String :=
  match time_number, time_letter with
  | some tn, some tl =>
    if tn = "" ∨ tl = "" then (none, "unknown", "")
    else
      let exc := (none, "unknown", tn ++ tl ++ " ago")
      match pyInt tn with
      | none => exc
      | some amount =>
        let unit := pyLower tl
        let raw := Nat.repr amount ++ unit ++ " ago"
        if unit = "s" then
          match dtSubUs now ((amount : Int) * 1000000) with
          | .ok dt => (some (replaceUs0 dt), "seconds", raw)
          | .error _ => exc
        else if unit = "m" then
          match dtSubUs now ((amount : Int) * 60000000) with
          | .ok dt => (some (replaceSecUs0 dt), "minutes", raw)
          | .error _ => exc
        else if unit = "h" then
          match dtSubUs now ((amount : Int) * 3600000000) with
          | .ok dt => (some (replaceMinSecUs0 dt), "hours", raw)
          | .error _ => exc
        else if unit = "d" then
          match dtSubUs now ((amount : Int) * 86400000000) with
          | .ok dt => (some (replaceHour0 dt), "days", raw)
          | .error _ => exc
        else if unit = "w" then
          -- `dt = dt.replace(day=0, ...)` runs before `dt` is ever
          -- assigned in this call: UnboundLocalError, caught below
          exc
        else if unit = "y" then
          match dtSubUs now ((amount : Int) * 365 * 86400000000) with
          | .ok dt =>
            match replaceDay0 dt with
            | .ok dt2 => (some dt2, "years", raw)
            | .error _ => exc
          | .error _ => exc
        else (none, "unknown", raw)
  | _, _ => (none, "unknown", "")

/-- Leftmost match of `re.search(r"(\d+)\s*([smhdwy])", text)`: find the
first maximal digit run that is followed, across optional whitespace, by a
unit character; return (digit run, unit).  Start positions inside a failed
run or its trailing whitespace cannot begin a match, so skipping to the end
of the run preserves `re.search`'s left-to-right semantics. -/
def searchNumUnit (units : List Char) : List Char → Option (List Char × Char)
  | [] => none
  | c :: rest =>
    if c.isDigit then
      let run := c :: rest.takeWhile Char.isDigit
      let after := rest.drop (rest.takeWhile Char.isDigit).length
      match after.dropWhile pyIsSpace with
      | u :: _ =>
        if u ∈ units then some (run, u) else searchNumUnit units after
      | [] => none
    else searchNumUnit units rest
termination_by l => l.length
decreasing_by
  all_goals simp [List.length_drop]
  all_goals omega

/-- `_parse_relative_time(relative_time)`: free-text variant of the
normalizer used for comments.  Here BOTH the `w` and the `y` branch call
`replace(day=0, ...)` after the subtraction, raising `ValueError` into the
blanket `except`, which returns `(None, "unknown", raw)`. -/
def parse_relative_time (now : DT) (relative_time : String) :
    Option DT × String × String :=
  let raw := pyStrip relative_time
  match searchNumUnit ['s', 'm', 'h', 'd', 'w', 'y'] (pyLower raw).data with
  | none => (none, "unknown", raw)
  | some (run, u) =>
    let amount := digitsVal run
    let exc := (none, "unknown", raw)
    if u = 's' then
      match dtSubUs now ((amount : Int) * 1000000) with
      | .ok dt => (some (replaceUs0 dt), "seconds", raw)
      | .error _ => exc
    else if u = 'm' then
      match dtSubUs now ((amount : Int) * 60000000) with
      | .ok dt => (some (replaceSecUs0 dt), "minutes", raw)
      | .error _ => exc
    else if u = 'h' then
      match dtSubUs now ((amount : Int) * 3600000000) with
      | .ok dt => (some (replaceMinSecUs0 dt), "hours", raw)
      | .error _ => exc
    else if u = 'd' then
      match dtSubUs now ((amount : Int) * 86400000000) with
      | .ok dt => (some (replaceHour0 dt), "days", raw)
      | .error _ => exc
    else if u = 'w' then
      match dtSubUs now ((amount : Int) * 604800000000) with
      | .ok dt =>
        match replaceDay0 dt with
        | .ok dt2 => (some dt2, "weeks", raw)
        | .error _ => exc
      | .error _ => exc
    else if u = 'y' then
      match dtSubUs now ((amount : Int) * 365 * 86400000000) with
      | .ok dt =>
        match replaceDay0 dt with
        | .ok dt2 => (some dt2, "years", raw)
        | .error _ => exc
      | .error _ => exc
    else (none, "unknown", raw)

/-! ## Parsed detail page (BeautifulSoup abstraction) -/

/-- The metadata block of one comment
(`div[class*='items-center'][class*='gap-2']`). -/
structure MetaDiv where
  /-- Stripped text of `a[href^='/u/']`, `none` when absent. -/
  authorLink : Option String
  /-- Stripped texts of its `span` elements, in document order.  Stripping
  only trims outer whitespace, so the `\d+[smhd]` search behaves the same
  on the stripped text. -/
  spans : List String
  deriving DecidableEq, Repr

/-- One comment container (`div.py-2`) on a detail page. -/
structure CommentBlock where
  metaDiv : Option MetaDiv
  /-- Stripped texts of the `p` elements under `div.prose`, `none` when the
  prose container is absent. -/
  prose : Option (List String)
  /-- Stripped text of `span.flex.items-center.gap-1`, `none` when absent. -/
  likesSpan : Option String
  deriving DecidableEq, Repr

/-- A rendered detail page, reduced to the element texts/attributes the
source queries out of it. -/
structure DetailPage where
  /-- Stripped texts of `span.font-bold` elements. -/
  boldSpans : List String
  /-- The `div.py-2` comment containers, in document order. -/
  commentBlocks : List CommentBlock
  /-- The `img` elements, each with its `src` attribute when present. -/
  imgs : List (Option String)
  /-- The `video` elements, each with the `src` values of its
  `source[src]` children. -/
  videoSources : List (List String)
  deriving DecidableEq, Repr

/-- First element of a string list that is a pure digit string, as a
number; 0 when there is none. -/
def firstDigitSpanVal : List String → Nat
  | [] => 0
  | t :: rest => if pyIsdigit t then digitsVal t.data else firstDigitSpanVal rest

/-- `_extract_likes`: the first purely-numeric `span.font-bold` text,
defaulting to 0. -/
def extract_likes (dp : DetailPage) : Nat :=
  firstDigitSpanVal dp.boldSpans

/-- `_detect_post_type`: `"image"` if any `img` element exists, else
`"video"` if any `video` element exists, else `"text"`. -/
def detect_post_type (dp : DetailPage) : String :=
  if dp.imgs ≠ [] then "image" else if dp.videoSources ≠ [] then "video" else "text"

/-- `_extract_media_urls`: the `src` of every `img[src]`, then of every
`video source[src]`. -/
def extract_media_urls (dp : DetailPage) : List String :=
  dp.imgs.filterMap id ++ dp.videoSources.flatten

/-- `_extract_hashtags`: `re.findall(r"#(\w+)", text or "")`. -/
def extract_hashtags (text : String) : List String :=
  markerRuns '#' text.data

/-- `_extract_mentions`: `re.findall(r"@(\w+)", text or "")`. -/
def extract_mentions (text : String) : List String :=
  markerRuns '@' text.data

/-- A digit immediately followed by one of `smhd` somewhere in the list. -/
def adjDigitUnit : List Char → Bool
  | a :: b :: rest =>
      (a.isDigit && (b = 's' || b = 'm' || b = 'h' || b = 'd')) ||
        adjDigitUnit (b :: rest)
  | _ => false

/-- Does the text contain a match of `re.search(r"\d+[smhd]", ...)`?
Equivalent to having a digit immediately followed by one of `smhd`. -/
def hasNumUnitSMHD (s : String) : Bool :=
  adjDigitUnit s.data

/-- `_parse_comments_from_detail`, inner loop: `enumerate(blocks, 1)` with
the noise filter (`continue` still advances the index). -/
def commentsGo (now : DT) : Nat → List CommentBlock → List Comment
  | _, [] => []
  | idx, b :: rest =>
    let author := match b.metaDiv with
      | some m =>
        match m.authorLink with
        | some a => pyReplace a "u/" ""   -- removes every occurrence of "u/"
        | none => "Unknown"
      | none => "Unknown"
    let raw_time := match b.metaDiv with
      | some m => (m.spans.find? (fun t => hasNumUnitSMHD t)).getD ""
      | none => ""
    let (timestamp, precision, parsed_raw_time) := parse_relative_time now raw_time
    let content := match b.prose with
      | some ps => " ".intercalate ps   -- " ".join of the paragraph texts
      | none => ""
    if content = "" ∧ author = "Unknown" then commentsGo now (idx + 1) rest
    else
      let likes : Int := match b.likesSpan with
        | some t =>
          -- re.search(r"\d+", text): the first maximal digit run
          match (t.data.dropWhile (fun c => !c.isDigit)).takeWhile Char.isDigit with
          | [] => -1                          -- no match: likes stays -1
          | run => (digitsVal run : Int)
        | none => -1
      { comment_id := pySlice (md5Hex (author ++ content ++ Nat.repr idx)) 16,
        author, content, timestamp, timestamp_precision := precision,
        timestamp_raw := parsed_raw_time, likes } :: commentsGo now (idx + 1) rest

/-- `_parse_comments_from_detail`: the comment list and its length. -/
def parse_comments_from_detail (now : DT) (dp : DetailPage) :
    List Comment × Nat :=
  let cs := commentsGo now 1 dp.commentBlocks
  (cs, cs.length)

/-! ## Identity (`_generate_post_id`) -/

/-- `_generate_post_id(submolt, author, timestamp, title, content, url)`.
The parameter names follow the source; note that the ONLY call site passes
`(author, submolt, ...)` positionally, so `submolt` here receives the
card's author string and `author` receives the (possibly-`None`) sub-forum
tag — the annotated types below are the runtime types at that call site.
The body hashes `f"{author}{submolt}{timestamp}{title}{content[:80]}{url}"`
and keeps the first 16 hex characters. -/
def generate_post_id (submolt : String) (author : Option String)
    (timestamp : Option DT) (title content url : String) : String :=
  pySlice (md5Hex (pyStrOptStr author ++ submolt ++ pyStrOptDT timestamp ++
    title ++ pySlice content 80 ++ url)) 16

/-! ## Feed cards (`get_current_posts` and helpers) -/

/-- The first-link/second-link metadata block of a card
(`div.flex-1.min-w-0`). -/
structure InfoDiv where
  /-- Stripped texts of all `a` elements, in document order. -/
  links : List String
  /-- Stripped texts of all `span` elements, in document order. -/
  spans : List String
  deriving DecidableEq, Repr

/-- One `span` of a card together with its previous-sibling span's text
(for the comment-count scan). -/
structure SpanEl where
  text : String
  prevSpanText : Option String
  deriving DecidableEq, Repr

/-- One feed card (`div.animate-fadeIn`), reduced to the queried parts. -/
structure CardDiv where
  /-- Stripped text (separator " ") of the first `h3`, `none` if absent. -/
  h3Text : Option String
  /-- Stripped text of the first `p`, `none` if absent. -/
  pText : Option String
  /-- `href` of `h3 a[href*="/post/"]` when such a link exists with a
  truthy `href`. -/
  h3PostHref : Option String
  /-- `href` of `a[href*="/post/"]` under the same condition. -/
  anyPostHref : Option String
  /-- The `div.flex-1.min-w-0` metadata block, when present. -/
  infoDiv : Option InfoDiv
  /-- All `span` elements of the card. -/
  spans : List SpanEl
  deriving DecidableEq, Repr

/-- `_extract_post_url`: try the `h3`-scoped selector, then the card-wide
one; make a root-relative href absolute against `Config.BASE_URL`; `None`
when neither selector matches. -/
def extract_post_url (card : CardDiv) : Option String :=
  match card.h3PostHref with
  | some href => some (if pyStartsWith href "/" then BASE_URL ++ href else href)
  | none =>
    match card.anyPostHref with
    | some href => some (if pyStartsWith href "/" then BASE_URL ++ href else href)
    | none => none

/-- `extract_post_metadata`: (sub-forum tag, username, relative-time digit
run, relative-time letter run).  The username defaults to `"Unknown"`; an
assumed `u/` username marker is stripped; the time parts come from the
first word of the first span containing "ago" (case-insensitively). -/
def extract_post_metadata (card : CardDiv) :
    Option String × String × Option String × Option String :=
  match card.infoDiv with
  | none => (none, "Unknown", none, none)
  | some info =>
    let submolt := match info.links with
      | [] => none
      | l0 :: _ => some l0
    let username := match info.links with
      | _ :: l1 :: _ => if pyStartsWith l1 "u/" then pyDrop l1 2 else l1
      | _ => "Unknown"
    let timeParts := match info.spans.find? (fun t => pyInStr "ago" (pyLower t)) with
      | some t =>
        match pySplitWs t with
        | [] => (none, none)
        | p0 :: _ => (some (String.mk (p0.data.filter Char.isDigit)),
                      some (String.mk (p0.data.filter Char.isAlpha)))
      | none => (none, none)
    (submolt, username, timeParts.1, timeParts.2)

/-- The comment-count scan of `get_current_posts`: at the first span whose
text is exactly "comments", read the previous sibling span if it is a
digit string; the loop breaks there either way. -/
def findCommentCount : List SpanEl → Option Nat
  | [] => none
  | sp :: rest =>
    if sp.text = "comments" then
      match sp.prevSpanText with
      | some t => if pyIsdigit t then some (digitsVal t.data) else none
      | none => none
    else findCommentCount rest

/-- The dictionary `get_current_posts` builds for one card. -/
structure PostData where
  title : String
  text : String
  url : String
  author : String
  submolt : Option String
  time_number : Option String
  time_letter : Option String
  comment_count : Option Nat
  deriving DecidableEq, Repr

/-- The per-card body of `get_current_posts`. -/
def postDataOfDiv (card : CardDiv) : PostData :=
  let md := extract_post_metadata card
  { title := card.h3Text.getD "",
    text := card.pText.getD "",
    url := (extract_post_url card).getD "",   -- `url or ""`
    author := md.2.1,
    submolt := md.1,
    time_number := md.2.2.1,
    time_letter := md.2.2.2,
    comment_count := findCommentCount card.spans }

/-- `get_current_posts`: all currently visible cards as dictionaries (the
`if not fadein_divs: return []` early exit agrees with `map` on `[]`). -/
def get_current_posts (cards : List CardDiv) : List PostData :=
  cards.map postDataOfDiv

/-! ## Detail-page retrieval (`_fetch_page_browser`) -/

/-- The browser session behind one `_fetch_page_browser` call: which steps
succeed and what the rendered page contains. -/
structure BrowserEnv where
  /-- Starting playwright / launching chromium / opening the context. -/
  launch : Except PyErr Unit
  /-- `page.goto(url, wait_until="networkidle")`: navigation timeouts and
  transport failures raise here. -/
  goto : String → Except PyErr Unit
  /-- `page.content()` after the scroll and the fixed pause.  (The
  `wait_for_selector` for `div.py-2` sits in its own `try`/`except` that
  only logs, so its outcome does not influence the result.) -/
  content : String → String

/-- `_fetch_page_browser(url)`: launch, navigate, wait, scroll, return the
page HTML.  There is no retry loop, no backoff and no rate-limit handling
in this function: any exception from launch or navigation propagates to
the caller, and `None` is never returned on any path. -/
def fetch_page_browser (env : BrowserEnv) (url : String) :
    Except PyErr (Option String) := do
  let _ ← env.launch
  let _ ← env.goto url
  pure (some (env.content url))

/-! ## Post assembly (`parse_post_data`) and the crawl loop -/

/-- The environment of one crawl run: the outcome of loading the start
page, the card dictionaries each shuffle iteration sees (in the order left
by `random.shuffle`), and the rendered detail page each URL fetch produces
(`.error` = the fetch raised, `some` = soup of non-empty HTML, `none` =
falsy page content). -/
structure CrawlEnv where
  load : Except PyErr Unit
  shuffles : Nat → List PostData
  fetch : String → Except PyErr (Option DetailPage)

/-- Observable outcome of one `parse_post_data` call: the returned value
or raised exception, the `FETCHED_URL_CACHE` afterwards, the URLs actually
passed to `_fetch_page_browser` during the call, and the record whose
`Post(...)` construction was attempted (if reached). -/
structure ParseOut where
  result : Except PyErr (Option Post)
  cache : List String
  fetched : List String
  built : Option Post

/-- `parse_post_data(post_data, post_index)` (the `post_index` argument is
unused by the source body).  Order of business, as in the source: drop the
card when title and body are both empty; normalize the relative time; short
circuit on a cache hit BEFORE fetching; record the URL in the cache; fetch
and parse the detail page; derive the identity; construct the `Post` —
which, models.py's dataclass having no `submolt` field, raises `TypeError`. -/
def parse_post_data (env : CrawlEnv) (now : DT) (pd : PostData)
    (cache : List String) : ParseOut :=
  let title := pd.title
  let content := pd.text
  let url := pd.url
  let submolt := pd.submolt
  let author := pd.author
  if title = "" ∧ content = "" then ⟨.ok none, cache, [], none⟩
  else
    let total_comments_count := pd.comment_count
    let ts := extract_timestamp pd.time_number pd.time_letter now
    let timestamp := ts.1
    let precision := ts.2.1
    let timestamp_raw := ts.2.2
    if url ∈ cache then ⟨.ok none, cache, [], none⟩
    else
      let cache1 := url :: cache      -- FETCHED_URL_CACHE.add(url)
      match env.fetch url with
      | .error e => ⟨.error e, cache1, [url], none⟩
      | .ok html =>
        let parsed := match html with
          | some dp =>
            let cc := parse_comments_from_detail now dp
            (cc.1, cc.2, extract_likes dp)
          | none => ([], 0, 0)
        let comments := parsed.1
        let comments_count := parsed.2.1
        let likes := parsed.2.2
        let post_id := generate_post_id author submolt timestamp title content url
        let p : Post := {
          post_id,
          author := pyOrStr author "Unknown",
          author_id := "",         -- `post_data.get("author_id", "")`
          submolt, title, content,
          timestamp := some (timestamp.getD now),   -- `timestamp or datetime.now()`
          timestamp_precision := pyOrStr precision "seconds",
          timestamp_raw := pyOrStr timestamp_raw (strDT now),
          likes, comments_count, total_comments_count, comments,
          post_type := "text",
          media_urls := [],
          hashtags := extract_hashtags content,
          mentions := extract_mentions content,
          url := pyOrStr url "",   -- `url or ""`
          scraped_at := some now }
        match construct_post p with
        | .error e => ⟨.error e, cache1, [url], some p⟩
        | .ok p2 => ⟨.ok (some p2), cache1, [url], some p2⟩

/-- Mutable state of `scrape_all_posts`: the accumulated posts, the
`self.seen_posts` identifier set, the `FETCHED_URL_CACHE`, and (as
instrumentation) the URLs fetched so far in this run. -/
structure RunState where
  acc : List Post
  seen : List String
  cache : List String
  trace : List String

/-- Why the shuffle loop stopped early. -/
inductive StopReason where
  | budget
  | raised (e : PyErr)

/-- The inner card loop of `scrape_all_posts`.  A duplicate `post_id` hits
`continue`, which skips the budget test for that iteration; every other
iteration ends with `if len(all_posts) >= Config.MAX_POSTS: return`.
Exceptions from `parse_post_data` are not caught — they abort the run. -/
def process_cards (env : CrawlEnv) (now : DT) (maxPosts : Int) :
    List PostData → RunState → RunState × Option StopReason
  | [], s => (s, none)
  | pd :: rest, s =>
    let o := parse_post_data env now pd s.cache
    let s1 : RunState := { s with cache := o.cache, trace := s.trace ++ o.fetched }
    match o.result with
    | .error e => (s1, some (.raised e))
    | .ok none =>
        if (s1.acc.length : Int) ≥ maxPosts then (s1, some .budget)
        else process_cards env now maxPosts rest s1
    | .ok (some post) =>
        if post.post_id ∈ s1.seen then
          process_cards env now maxPosts rest s1
        else
          let s2 : RunState :=
            { s1 with seen := post.post_id :: s1.seen, acc := s1.acc ++ [post] }
          if (s2.acc.length : Int) ≥ maxPosts then (s2, some .budget)
          else process_cards env now maxPosts rest s2

/-- The outer `for shuffle in range(Config.MAX_SHUFFLES)` loop: an empty
card list logs, shuffles again and continues; otherwise the inner loop runs
and its early return (budget) or exception ends the whole run.  The
`click_shuffle` return value is ignored by the source, so a missing or
disabled shuffle control never stops the loop. -/
def process_shuffles (env : CrawlEnv) (now : DT) (maxPosts : Int) :
    Nat → Nat → RunState → RunState × Option StopReason
  | _, 0, s => (s, none)
  | i, n + 1, s =>
    let pds := env.shuffles i
    if pds = [] then process_shuffles env now maxPosts (i + 1) n s
    else
      match process_cards env now maxPosts pds s with
      | (s2, none) => process_shuffles env now maxPosts (i + 1) n s2
      | (s2, some r) => (s2, some r)

/-- Observable outcome of one `scrape_all_posts` run: the returned post
list or the exception that aborted the run, plus the final state (with the
accumulated posts also exposed on the abort path). -/
structure ScrapeOut where
  result : Except PyErr (List Post)
  acc : List Post
  seen : List String
  cache : List String
  trace : List String

/-- `scrape_all_posts()`: load the start page (a fatal navigation error
propagates), then run the shuffle loop from an empty accumulator, with the
instance's current `seen_posts` and the process-wide `FETCHED_URL_CACHE`
passed in as `seen0` / `cache0`. -/
def scrape_all_posts (env : CrawlEnv) (now : DT) (maxShuffles : Nat)
    (maxPosts : Int) (seen0 cache0 : List String) : ScrapeOut :=
  match env.load with
  | .error e => ⟨.error e, [], seen0, cache0, []⟩
  | .ok _ =>
    match process_shuffles env now maxPosts 0 maxShuffles ⟨[], seen0, cache0, []⟩ with
    | (s, some (.raised e)) => ⟨.error e, s.acc, s.seen, s.cache, s.trace⟩
    | (s, _) => ⟨.ok s.acc, s.acc, s.seen, s.cache, s.trace⟩

/-- The value `parse_post_data` hands back to the crawl loop when it
returns normally with a post (observation helper). -/
def emitted (o : ParseOut) : Option Post :=
  match o.result with
  | .ok (some p) => some p
  | _ => none

/-- Instrumentation invariant of a run state: the fetch log is
duplicate-free and every fetched URL has been recorded in the cache. -/
def TraceInv (s : RunState) : Prop :=
  s.trace.Nodup ∧ ∀ u ∈ s.trace, u ∈ s.cache

/-! ## Concrete sample data (used by witnesses and counterexamples) -/

/-- A frozen `datetime.now()`: 2023-05-17 13:45:12.345678. -/
def demoNow : DT := ⟨63819927912345678⟩

/-- A fully-populated card dictionary. -/
def demoCard : PostData :=
  ⟨"A", "B", "u1", "alice", some "m/general", none, none, some 4⟩

/-- A one-shuffle environment showing `demoCard`; every detail fetch
renders falsy content. -/
def demoEnv : CrawlEnv :=
  ⟨.ok (), fun i => if i = 0 then [demoCard] else [], fun _ => .ok none⟩

/-- A card with neither title nor snippet. -/
def emptyCard : PostData := ⟨"", "", "u2", "Unknown", none, none, none, none⟩

/-- A card whose detail URL could not be resolved (`url or ""`). -/
def noUrlCard : PostData := ⟨"T", "C", "", "Unknown", none, none, none, none⟩

/-- A card carrying relative-time information. -/
def timedCard : PostData :=
  ⟨"A", "B", "u3", "alice", some "m/g", some "3", some "d", some 0⟩

/-- Scenario D: a feed card with a heading, no paragraph, a resolvable
post link, and no metadata block (so no author can be extracted). -/
def cardScenarioD : CardDiv :=
  ⟨some "Hello", none, some "/post/9", none, none, []⟩

/-- A detail page containing one image. -/
def imgPage : DetailPage := ⟨[], [], [some "pic.png"], []⟩

/-- An environment whose detail fetches all render `imgPage`. -/
def imgEnv : CrawlEnv :=
  ⟨.ok (), fun _ => [], fun _ => .ok (some imgPage)⟩

/-- The identity formula in the words of claim C6:
`hash(author + sub-forum + absolute_timestamp_or_null + title +
content[:80] + url)`, with the same hash, rendering and truncation as the
source. -/
def claim_post_id (author : String) (submolt : Option String)
    (timestamp : Option DT) (title content url : String) : String :=
  pySlice (md5Hex (author ++ pyStrOptStr submolt ++ pyStrOptDT timestamp ++
    title ++ pySlice content 80 ++ url)) 16

/-- The identity formula as amended: sub-forum before author, which is
what the positional-argument swap at the call site produces. -/
def amended_post_id (author : String) (submolt : Option String)
    (timestamp : Option DT) (title content url : String) : String :=
  pySlice (md5Hex (pyStrOptStr submolt ++ author ++ pyStrOptDT timestamp ++
    title ++ pySlice content 80 ++ url)) 16

/-! ## Helper lemmas -/

/-- No call of `parse_post_data` can return a post: every path either
returns `None` or raises, because the `Post(...)` construction always
raises `TypeError` (models.py's dataclass has no `submolt` field). -/
theorem parse_result_not_some (env : CrawlEnv) (now : DT) (pd : PostData)
    (cache : List String) (p : Post) :
    (parse_post_data env now pd cache).result ≠ .ok (some p) := by
  simp only [parse_post_data]
  split
  · simp
  · split
    · simp
    · cases h : env.fetch pd.url <;> simp [construct_post]

/-- A `parse_post_data` call either touches nothing (drop or cache hit) or
records one fresh URL in the cache and fetches exactly that URL. -/
theorem parse_cache_fetch_cases (env : CrawlEnv) (now : DT) (pd : PostData)
    (cache : List String) :
    ((parse_post_data env now pd cache).cache = cache ∧
      (parse_post_data env now pd cache).fetched = []) ∨
    (pd.url ∉ cache ∧
      (parse_post_data env now pd cache).cache = pd.url :: cache ∧
      (parse_post_data env now pd cache).fetched = [pd.url]) := by
  simp only [parse_post_data]
  split
  · left; simp
  · split
    · left; simp
    · right
      refine ⟨by assumption, ?_⟩
      cases h : env.fetch pd.url <;> simp [construct_post]

/-- The card loop preserves the fetch-log invariant. -/
theorem process_cards_traceInv (env : CrawlEnv) (now : DT) (maxPosts : Int) :
    ∀ (pds : List PostData) (s : RunState), TraceInv s →
      TraceInv (process_cards env now maxPosts pds s).1 := by
  intro pds
  induction pds with
  | nil => intro s hs; simpa [process_cards] using hs
  | cons pd rest ih =>
    intro s hs
    have hstep :
        TraceInv
          { s with
              cache := (parse_post_data env now pd s.cache).cache
              trace := s.trace ++ (parse_post_data env now pd s.cache).fetched } := by
      rcases parse_cache_fetch_cases env now pd s.cache with ⟨hc, hf⟩ | ⟨hm, hc, hf⟩
      · simpa [hc, hf, TraceInv] using hs
      · refine ⟨?_, ?_⟩
        · simp only [hf, List.nodup_append]
          exact ⟨hs.1, List.nodup_singleton _,
            by
              intro u hu hu2
              simp at hu2
              subst hu2
              exact hm (hs.2 _ hu)⟩
        · intro u hu
          simp only [hf, List.mem_append, List.mem_singleton] at hu
          rcases hu with hu | hu
          · simp [hc, hs.2 u hu]
          · simp [hc, hu]
    simp only [process_cards]
    split
    · simpa using hstep
    · split
      · simpa using hstep
      · exact ih _ hstep
    · rename_i post heq
      exact absurd heq (parse_result_not_some env now pd s.cache post)

/-- The shuffle loop preserves the fetch-log invariant. -/
theorem process_shuffles_traceInv (env : CrawlEnv) (now : DT) (maxPosts : Int) :
    ∀ (n i : Nat) (s : RunState), TraceInv s →
      TraceInv (process_shuffles env now maxPosts i n s).1 := by
  intro n
  induction n with
  | zero => intro i s hs; simpa [process_shuffles] using hs
  | succ n ih =>
    intro i s hs
    simp only [process_shuffles]
    split
    · exact ih _ _ hs
    · cases h : process_cards env now maxPosts (env.shuffles i) s with
      | mk s2 r =>
        have h2 : TraceInv s2 := by
          have := process_cards_traceInv env now maxPosts (env.shuffles i) s hs
          rwa [h] at this
        cases r with
        | none => exact ih _ _ h2
        | some r => simpa using h2

/-- The card loop never grows the accumulator: `parse_post_data` cannot
return a post. -/
theorem process_cards_acc (env : CrawlEnv) (now : DT) (maxPosts : Int) :
    ∀ (pds : List PostData) (s : RunState),
      (process_cards env now maxPosts pds s).1.acc = s.acc := by
  intro pds
  induction pds with
  | nil => intro s; simp [process_cards]
  | cons pd rest ih =>
    intro s
    simp only [process_cards]
    split
    · simp
    · split
      · simp
      · simpa using ih _
    · rename_i post heq
      exact absurd heq (parse_result_not_some env now pd s.cache post)

/-- The shuffle loop never grows the accumulator. -/
theorem process_shuffles_acc (env : CrawlEnv) (now : DT) (maxPosts : Int) :
    ∀ (n i : Nat) (s : RunState),
      (process_shuffles env now maxPosts i n s).1.acc = s.acc := by
  intro n
  induction n with
  | zero => intro i s; simp [process_shuffles]
  | succ n ih =>
    intro i s
    simp only [process_shuffles]
    split
    · exact ih _ _
    · cases h : process_cards env now maxPosts (env.shuffles i) s with
      | mk s2 r =>
        have h2 : s2.acc = s.acc := by
          have := process_cards_acc env now maxPosts (env.shuffles i) s
          rwa [h] at this
        cases r with
        | none => rw [ih _ _, h2]
        | some r => simpa using h2

/-- A whole run accumulates no posts at all (the `Post` construction
raises before any append can happen). -/
theorem scrape_acc_nil (env : CrawlEnv) (now : DT) (maxShuffles : Nat)
    (maxPosts : Int) (seen0 cache0 : List String) :
    (scrape_all_posts env now maxShuffles maxPosts seen0 cache0).acc = [] := by
  unfold scrape_all_posts
  cases env.load with
  | error e => rfl
  | ok _ =>
    cases h : process_shuffles env now maxPosts 0 maxShuffles ⟨[], seen0, cache0, []⟩ with
    | mk s stop =>
      have hs : s.acc = [] := by
        have := process_shuffles_acc env now maxPosts maxShuffles 0
          ⟨[], seen0, cache0, []⟩
        rwa [h] at this
      cases stop with
      | none => simpa using hs
      | some r => cases r <;> simpa using hs

/-- The fetch log of a whole run is duplicate-free. -/
theorem scrape_trace_nodup (env : CrawlEnv) (now : DT) (maxShuffles : Nat)
    (maxPosts : Int) (seen0 cache0 : List String) :
    (scrape_all_posts env now maxShuffles maxPosts seen0 cache0).trace.Nodup := by
  unfold scrape_all_posts
  cases env.load with
  | error e => simp
  | ok _ =>
    cases h : process_shuffles env now maxPosts 0 maxShuffles ⟨[], seen0, cache0, []⟩ with
    | mk s stop =>
      have hs : TraceInv s := by
        have := process_shuffles_traceInv env now maxPosts maxShuffles 0
          ⟨[], seen0, cache0, []⟩ ⟨by simp, by simp⟩
        rwa [h] at this
      cases stop with
      | none => simpa using hs.1
      | some r => cases r <;> simpa using hs.1

/-! ## The claims -/

/-- C1: the detail-page fetcher performs exactly one attempt.  A navigation
error (timeout / transport failure) propagates to the caller unchanged —
there is no retry, no backoff sleep and no attempt counter — and the
function never returns `None` on any path, contradicting the claimed
retry-then-null policy.  (The backoff configuration `BASE_BACKOFF` /
`MAX_BACKOFF` exists but is read by no fetch path.) -/
theorem claim_C1 :
    (∀ (env : BrowserEnv) (url : String) (e : PyErr),
      env.launch = .ok () → env.goto url = .error e →
        fetch_page_browser env url = .error e) ∧
    (∀ (env : BrowserEnv) (url : String),
      fetch_page_browser env url ≠ .ok none) := by
  constructor
  · intro env url e hl hg
    unfold fetch_page_browser
    rw [hl, hg]
    rfl
  · intro env url
    unfold fetch_page_browser
    cases hl : env.launch with
    | error e => exact fun h => Except.noConfusion h
    | ok u =>
      cases hg : env.goto url with
      | error e => exact fun h => Except.noConfusion h
      | ok v => exact fun h => Option.noConfusion (Except.ok.inj h)

/-- Witness for C1: a fetch whose first navigation attempt times out
propagates the timeout and yields no null. -/
theorem claim_C1_witness :
    fetch_page_browser ⟨.ok (), fun _ => .error .timeoutError, fun _ => ""⟩
        "https://www.moltbook.com/post/1" = .error .timeoutError ∧
    fetch_page_browser ⟨.ok (), fun _ => .error .timeoutError, fun _ => ""⟩
        "https://www.moltbook.com/post/1" ≠ .ok none :=
  ⟨claim_C1.1 _ _ _ rfl rfl, claim_C1.2 _ _⟩

/-- C2 (counterexample): at amount 3 and unit `w` the normalizer does NOT
return `now - 3 weeks` with label "weeks" — it returns
`(None, "unknown", "3w ago")`, because the weeks branch raises. -/
theorem claim_C2_counterexample :
    extract_timestamp (some "3") (some "w") ⟨63819927912345678⟩ =
      (none, "unknown", "3w ago") ∧
    extract_timestamp (some "3") (some "w") ⟨63819927912345678⟩ ≠
      (some ⟨63819927912345678 - 3 * 604800000000⟩, "weeks", "3w ago") := by
  constructor
  · decide
  · decide

/-- C2 (amended): for units `s`, `m`, `h`, `d` the normalizer returns
`now - duration(amount, unit)` rounded down to the start of the current
second / minute / hour / day respectively (so with up to one unit of
slack, not zero), with the unit's plural label, whenever the subtraction
stays inside the representable datetime range; for units `w` and `y` it
always returns `(None, "unknown", "{amount}{unit} ago")` because the weeks
branch reads `dt` before assignment and the years branch calls
`replace(day=0)`, both raising into the blanket handler. -/
theorem claim_C2 (now : DT) (amount : Nat) (s : String)
    (hparse : pyInt s = some amount) (hnow : now.us ≤ maxDTus) :
    (0 ≤ now.us - (amount : Int) * 1000000 →
      ∃ t : Int, extract_timestamp (some s) (some "s") now =
          (some ⟨t⟩, "seconds", Nat.repr amount ++ "s" ++ " ago") ∧
        (1000000 : Int) ∣ t ∧ t ≤ now.us - (amount : Int) * 1000000 ∧
        now.us - (amount : Int) * 1000000 < t + 1000000) ∧
    (0 ≤ now.us - (amount : Int) * 60000000 →
      ∃ t : Int, extract_timestamp (some s) (some "m") now =
          (some ⟨t⟩, "minutes", Nat.repr amount ++ "m" ++ " ago") ∧
        (60000000 : Int) ∣ t ∧ t ≤ now.us - (amount : Int) * 60000000 ∧
        now.us - (amount : Int) * 60000000 < t + 60000000) ∧
    (0 ≤ now.us - (amount : Int) * 3600000000 →
      ∃ t : Int, extract_timestamp (some s) (some "h") now =
          (some ⟨t⟩, "hours", Nat.repr amount ++ "h" ++ " ago") ∧
        (3600000000 : Int) ∣ t ∧ t ≤ now.us - (amount : Int) * 3600000000 ∧
        now.us - (amount : Int) * 3600000000 < t + 3600000000) ∧
    (0 ≤ now.us - (amount : Int) * 86400000000 →
      ∃ t : Int, extract_timestamp (some s) (some "d") now =
          (some ⟨t⟩, "days", Nat.repr amount ++ "d" ++ " ago") ∧
        (86400000000 : Int) ∣ t ∧ t ≤ now.us - (amount : Int) * 86400000000 ∧
        now.us - (amount : Int) * 86400000000 < t + 86400000000) ∧
    extract_timestamp (some s) (some "w") now = (none, "unknown", s ++ "w" ++ " ago") ∧
    extract_timestamp (some s) (some "y") now = (none, "unknown", s ++ "y" ++ " ago") := by
  have hd : pyIsdigit s = true := by
    by_contra h
    simp [pyInt, h] at hparse
  have hne2 : ∀ u : String, u ≠ "" → ¬(s = "" ∨ u = "") := by
    intro u hu
    rintro (h | h)
    · rw [h] at hd
      exact absurd hd (by decide)
    · exact hu h
  have hin : ∀ k : Int, 0 ≤ k → 0 ≤ now.us - k → DTinRange (now.us - k) := by
    intro k hk h0
    exact ⟨h0, le_trans (by omega) hnow⟩
  refine ⟨?_, ?_, ?_, ?_, ?_, ?_⟩
  · intro hr
    refine ⟨now.us - (amount : Int) * 1000000 -
      (now.us - (amount : Int) * 1000000) % 1000000, ?_, by omega, by omega, by omega⟩
    simp only [extract_timestamp, hparse]
    rw [if_neg (hne2 "s" (by decide))]
    rw [show pyLower "s" = "s" from by decide]
    rw [if_pos rfl, dtSubUs, if_pos (hin _ (by omega) hr)]
    rfl
  · intro hr
    refine ⟨now.us - (amount : Int) * 60000000 -
      (now.us - (amount : Int) * 60000000) % 60000000, ?_, by omega, by omega, by omega⟩
    simp only [extract_timestamp, hparse]
    rw [if_neg (hne2 "m" (by decide))]
    rw [show pyLower "m" = "m" from by decide]
    rw [if_neg (by decide), if_pos rfl, dtSubUs, if_pos (hin _ (by omega) hr)]
    rfl
  · intro hr
    refine ⟨now.us - (amount : Int) * 3600000000 -
      (now.us - (amount : Int) * 3600000000) % 3600000000, ?_, by omega, by omega, by omega⟩
    simp only [extract_timestamp, hparse]
    rw [if_neg (hne2 "h" (by decide))]
    rw [show pyLower "h" = "h" from by decide]
    rw [if_neg (by decide), if_neg (by decide), if_pos rfl, dtSubUs, if_pos (hin _ (by omega) hr)]
    rfl
  · intro hr
    refine ⟨now.us - (amount : Int) * 86400000000 -
      (now.us - (amount : Int) * 86400000000) % 86400000000, ?_, by omega, by omega, by omega⟩
    simp only [extract_timestamp, hparse]
    rw [if_neg (hne2 "d" (by decide))]
    rw [show pyLower "d" = "d" from by decide]
    rw [if_neg (by decide), if_neg (by decide), if_neg (by decide),
      if_pos rfl, dtSubUs, if_pos (hin _ (by omega) hr)]
    rfl
  · simp only [extract_timestamp, hparse]
    rw [if_neg (hne2 "w" (by decide))]
    rw [show pyLower "w" = "w" from by decide]
    rw [if_neg (by decide), if_neg (by decide), if_neg (by decide),
      if_neg (by decide), if_pos rfl]
  · simp only [extract_timestamp, hparse]
    rw [if_neg (hne2 "y" (by decide))]
    rw [show pyLower "y" = "y" from by decide]
    rw [if_neg (by decide), if_neg (by decide), if_neg (by decide),
      if_neg (by decide), if_neg (by decide), if_pos rfl]
    cases hs : dtSubUs now ((amount : Int) * 365 * 86400000000) with
    | error e => rfl
    | ok dt => simp [replaceDay0]

/-- Witness for C2: at `now` = 2023-05-17 13:45:12.345678 and amount 3,
the seconds branch floors to the second and the weeks branch yields null. -/
theorem claim_C2_witness :
    (∃ t : Int, extract_timestamp (some "3") (some "s") ⟨63819927912345678⟩ =
        (some ⟨t⟩, "seconds", Nat.repr 3 ++ "s" ++ " ago") ∧
      (1000000 : Int) ∣ t ∧
      t ≤ (DT.mk 63819927912345678).us - ((3 : Nat) : Int) * 1000000 ∧
      (DT.mk 63819927912345678).us - ((3 : Nat) : Int) * 1000000 < t + 1000000) ∧
    extract_timestamp (some "3") (some "w") ⟨63819927912345678⟩ =
      (none, "unknown", "3" ++ "w" ++ " ago") :=
  ⟨(claim_C2 ⟨63819927912345678⟩ 3 "3" (by decide) (by decide)).1 (by decide),
   (claim_C2 ⟨63819927912345678⟩ 3 "3" (by decide) (by decide)).2.2.2.2.1⟩

/-- C3: false of the code as written.  A run over a feed with one
well-formed card aborts with `TypeError` at the `Post(...)` construction
(models.py's dataclass has no `submolt` field, while `parse_post_data`
passes one), so no post is ever accumulated and the budget stop/return
can never be reached.  The concrete run below fetches the card's URL and
then raises, accumulating nothing. -/
theorem claim_C3 :
    scrape_all_posts demoEnv demoNow 1 5 [] [] =
      ⟨.error .typeError, [], [], ["u1"], ["u1"]⟩ := by
  rfl

/-- C4: false of the code as written.  `parse_post_data` never returns a
post (its `Post(...)` construction always raises `TypeError`), so the
seen-identifier check and the append in `scrape_all_posts` are dead code:
the described mechanism cannot execute. -/
theorem claim_C4 (env : CrawlEnv) (now : DT) (pd : PostData)
    (cache : List String) :
    emitted (parse_post_data env now pd cache) = none := by
  unfold emitted
  cases h : (parse_post_data env now pd cache).result with
  | error e => rfl
  | ok o =>
    cases o with
    | none => rfl
    | some p => exact absurd h (parse_result_not_some env now pd cache p)

/-- C5: the cache-hit short circuit and fetch-once discipline.  (i) A card
whose detail URL is already in the fetched-URL set yields null with no
fetch and no cache change; (ii) whenever a call does fetch, it fetches
exactly the card's URL, that URL was fresh, and it is recorded in the
cache (the record happens before the fetch in the source); (iii) over a
whole run the fetch log is duplicate-free: no URL is fetched twice. -/
theorem claim_C5 :
    (∀ (env : CrawlEnv) (now : DT) (pd : PostData) (cache : List String),
      pd.url ∈ cache →
        (parse_post_data env now pd cache).result = .ok none ∧
        (parse_post_data env now pd cache).fetched = [] ∧
        (parse_post_data env now pd cache).cache = cache) ∧
    (∀ (env : CrawlEnv) (now : DT) (pd : PostData) (cache : List String),
      (parse_post_data env now pd cache).fetched ≠ [] →
        pd.url ∉ cache ∧
        (parse_post_data env now pd cache).fetched = [pd.url] ∧
        (parse_post_data env now pd cache).cache = pd.url :: cache) ∧
    (∀ (env : CrawlEnv) (now : DT) (maxShuffles : Nat) (maxPosts : Int)
        (seen0 cache0 : List String),
      (scrape_all_posts env now maxShuffles maxPosts seen0 cache0).trace.Nodup) := by
  refine ⟨?_, ?_, ?_⟩
  · intro env now pd cache hmem
    simp only [parse_post_data]
    split <;> simp_all
  · intro env now pd cache h
    rcases parse_cache_fetch_cases env now pd cache with ⟨_, hf⟩ | ⟨hm, hc, hf⟩
    · exact absurd hf h
    · exact ⟨hm, hf, hc⟩
  · intro env now maxShuffles maxPosts seen0 cache0
    exact scrape_trace_nodup env now maxShuffles maxPosts seen0 cache0

/-- Witness for C5: a cache hit is skipped without a fetch; a fresh URL is
fetched once and recorded. -/
theorem claim_C5_witness :
    ((parse_post_data demoEnv demoNow demoCard ["u1"]).result = .ok none ∧
      (parse_post_data demoEnv demoNow demoCard ["u1"]).fetched = [] ∧
      (parse_post_data demoEnv demoNow demoCard ["u1"]).cache = ["u1"]) ∧
    (demoCard.url ∉ ([] : List String) ∧
      (parse_post_data demoEnv demoNow demoCard []).fetched = [demoCard.url] ∧
      (parse_post_data demoEnv demoNow demoCard []).cache = [demoCard.url]) :=
  ⟨claim_C5.1 demoEnv demoNow demoCard ["u1"] (by decide),
   claim_C5.2.1 demoEnv demoNow demoCard [] (by decide)⟩

set_option maxRecDepth 8000 in
/-- C6 (counterexample): at author "ab", sub-forum "c", no timestamp,
title "t", content "body", url "u", the id the code produces is NOT the
hash of `author + sub-forum + ...` — the call site swaps the first two
segments. -/
theorem claim_C6_counterexample :
    generate_post_id "ab" (some "c") none "t" "body" "u" ≠
      claim_post_id "ab" (some "c") none "t" "body" "u" := by
  decide

/-- C6 (amended): `post_id` is a deterministic md5-prefix hash of
`sub-forum + author + absolute_timestamp_or_None + title + content[:80]
+ url` — sub-forum and author swapped relative to the claim, because
`parse_post_data` passes `(author, submolt, ...)` positionally into
`_generate_post_id(submolt, author, ...)`.  Determinism and the 80-char
truncation contract hold as claimed. -/
theorem claim_C6 :
    (∀ (author : String) (submolt : Option String) (ts : Option DT)
        (title content url : String),
      generate_post_id author submolt ts title content url =
        amended_post_id author submolt ts title content url) ∧
    (∀ (author : String) (submolt : Option String) (ts : Option DT)
        (title content url : String),
      generate_post_id author submolt ts title content url =
        generate_post_id author submolt ts title content url) ∧
    (∀ (author : String) (submolt : Option String) (ts : Option DT)
        (title c1 c2 url : String), pySlice c1 80 = pySlice c2 80 →
      generate_post_id author submolt ts title c1 url =
        generate_post_id author submolt ts title c2 url) := by
  refine ⟨fun _ _ _ _ _ _ => rfl, fun _ _ _ _ _ _ => rfl, ?_⟩
  intro author submolt ts title c1 c2 url h
  simp only [generate_post_id, h]

/-- Witness for C6: two contents agreeing on their first 80 characters and
differing at the 81st yield the same id. -/
theorem claim_C6_witness :
    generate_post_id "ab" (some "c") none "t"
        (String.mk (List.replicate 80 'a' ++ ['b'])) "u" =
      generate_post_id "ab" (some "c") none "t"
        (String.mk (List.replicate 80 'a' ++ ['c'])) "u" :=
  claim_C6.2.2 "ab" (some "c") none "t" _ _ "u" (by decide)

/-- C7: the drop rule is as claimed — only a card with neither title nor
body yields null, and that path cannot raise — but the emission half is
false of the code: a scenario-D card (title, empty snippet, unresolvable
author) does NOT produce a post with author "Unknown"; `parse_post_data`
raises `TypeError` at the `Post(...)` construction because models.py's
dataclass lacks the `submolt` field being passed. -/
theorem claim_C7 :
    ((postDataOfDiv cardScenarioD).title = "Hello" ∧
      (postDataOfDiv cardScenarioD).text = "" ∧
      (postDataOfDiv cardScenarioD).author = "Unknown" ∧
      (parse_post_data demoEnv demoNow (postDataOfDiv cardScenarioD) []).result =
        .error .typeError) ∧
    (∀ (env : CrawlEnv) (now : DT) (pd : PostData) (cache : List String),
      pd.title = "" → pd.text = "" →
        (parse_post_data env now pd cache).result = .ok none) := by
  constructor
  · exact ⟨rfl, rfl, rfl, rfl⟩
  · intro env now pd cache h1 h2
    simp only [parse_post_data]
    rw [if_pos ⟨h1, h2⟩]

/-- Witness for C7: the empty card is dropped with a null result. -/
theorem claim_C7_witness :
    (parse_post_data demoEnv demoNow emptyCard []).result = .ok none :=
  claim_C7.2 demoEnv demoNow emptyCard [] rfl rfl

/-- C8: the relative-time normalizer's failure modes.  A missing (`None`
or empty) amount or unit yields `(None, "unknown", "")`; a present amount
with an unrecognized unit letter falls through every branch and yields
`(None, "unknown", "{amount}{unit} ago")`. -/
theorem claim_C8 :
    (∀ (tl : Option String) (now : DT),
      extract_timestamp none tl now = (none, "unknown", "")) ∧
    (∀ (tn : Option String) (now : DT),
      extract_timestamp tn none now = (none, "unknown", "")) ∧
    (∀ (tl : Option String) (now : DT),
      extract_timestamp (some "") tl now = (none, "unknown", "")) ∧
    (∀ (tn : Option String) (now : DT),
      extract_timestamp tn (some "") now = (none, "unknown", "")) ∧
    (∀ (amount : Nat) (s u : String) (now : DT),
      pyInt s = some amount → pyLower u = u → u ≠ "" →
      u ∉ (["s", "m", "h", "d", "w", "y"] : List String) →
        extract_timestamp (some s) (some u) now =
          (none, "unknown", Nat.repr amount ++ u ++ " ago")) := by
  refine ⟨?_, ?_, ?_, ?_, ?_⟩
  · intro tl now
    cases tl <;> rfl
  · intro tn now
    cases tn <;> rfl
  · intro tl now
    cases tl with
    | none => rfl
    | some t =>
      simp only [extract_timestamp]
      rw [if_pos (Or.inl trivial)]
  · intro tn now
    cases tn with
    | none => rfl
    | some t =>
      simp only [extract_timestamp]
      rw [if_pos (Or.inr trivial)]
  · intro amount s u now hparse hlow hne hmem
    have hd : pyIsdigit s = true := by
      by_contra h
      simp [pyInt, h] at hparse
    have hs : s ≠ "" := by
      intro h
      rw [h] at hd
      exact absurd hd (by decide)
    simp only [extract_timestamp, hparse]
    rw [if_neg (by rintro (h | h) <;> [exact hs h; exact hne h])]
    rw [hlow]
    rw [if_neg (fun h => hmem (by simp [h])),
      if_neg (fun h => hmem (by simp [h])),
      if_neg (fun h => hmem (by simp [h])),
      if_neg (fun h => hmem (by simp [h])),
      if_neg (fun h => hmem (by simp [h])),
      if_neg (fun h => hmem (by simp [h]))]

/-- Witness for C8: unit "x" with amount 7 yields
`(None, "unknown", "7x ago")`. -/
theorem claim_C8_witness :
    extract_timestamp (some "7") (some "x") demoNow =
      (none, "unknown", Nat.repr 7 ++ "x" ++ " ago") :=
  claim_C8.2.2.2.2 7 "7" "x" demoNow (by decide) (by decide) (by decide) (by decide)

/-- C9: cards with an unresolvable detail URL share the single cache entry
`""`.  (i) Once `""` is in the fetched-URL set, ANY card whose URL
resolved to `""` is skipped with a null result, whatever its title, body
or author; (ii) the first such card (with a title or body) does insert
`""` into the set; (iii) a card without a matching post link gets url
`""`; (iv) over a whole run, at most one accumulated post can carry an
empty url. -/
theorem claim_C9 :
    (∀ (env : CrawlEnv) (now : DT) (pd : PostData) (cache : List String),
      pd.url = "" → "" ∈ cache →
        (parse_post_data env now pd cache).result = .ok none ∧
        (parse_post_data env now pd cache).fetched = []) ∧
    (∀ (env : CrawlEnv) (now : DT) (pd : PostData) (cache : List String),
      pd.url = "" → ¬(pd.title = "" ∧ pd.text = "") → "" ∉ cache →
        "" ∈ (parse_post_data env now pd cache).cache) ∧
    (∀ (card : CardDiv), extract_post_url card = none →
      (postDataOfDiv card).url = "") ∧
    (∀ (env : CrawlEnv) (now : DT) (maxShuffles : Nat) (maxPosts : Int)
        (seen0 cache0 : List String),
      ((scrape_all_posts env now maxShuffles maxPosts seen0 cache0).acc.countP
        (fun p => p.url == "")) ≤ 1) := by
  refine ⟨?_, ?_, ?_, ?_⟩
  · intro env now pd cache h1 h2
    simp only [parse_post_data]
    split
    · exact ⟨rfl, rfl⟩
    · rw [if_pos (by rw [h1]; exact h2)]
      exact ⟨rfl, rfl⟩
  · intro env now pd cache h1 hTC hmem
    simp only [parse_post_data]
    rw [if_neg hTC]
    rw [if_neg (by rw [h1]; exact hmem)]
    cases hf : env.fetch pd.url with
    | error e => simp [h1]
    | ok html => simp [construct_post, h1]
  · intro card h
    simp [postDataOfDiv, h]
  · intro env now maxShuffles maxPosts seen0 cache0
    rw [scrape_acc_nil]
    simp

/-- Witness for C9: with `""` already cached, the unresolvable-URL card is
skipped without a fetch; with a fresh cache it inserts `""`. -/
theorem claim_C9_witness :
    ((parse_post_data demoEnv demoNow noUrlCard [""]).result = .ok none ∧
      (parse_post_data demoEnv demoNow noUrlCard [""]).fetched = []) ∧
    "" ∈ (parse_post_data demoEnv demoNow noUrlCard []).cache :=
  ⟨claim_C9.1 demoEnv demoNow noUrlCard [""] rfl (by decide),
   claim_C9.2.1 demoEnv demoNow noUrlCard [] rfl (by decide) (by decide)⟩

/-- C10: every record handed to the `Post` constructor from a feed card
has `post_type = "text"` and `media_urls = []`, regardless of the fetched
detail page — even though the (never-called) helpers would classify the
sample page as an image post with one media URL. -/
theorem claim_C10 :
    (∀ (env : CrawlEnv) (now : DT) (pd : PostData) (cache : List String)
        (p : Post),
      (parse_post_data env now pd cache).built = some p →
        p.post_type = "text" ∧ p.media_urls = []) ∧
    detect_post_type imgPage = "image" ∧
    extract_media_urls imgPage = ["pic.png"] := by
  refine ⟨?_, by decide, by decide⟩
  intro env now pd cache p h
  simp only [parse_post_data] at h
  split at h
  · exact absurd h (by simp)
  · split at h
    · exact absurd h (by simp)
    · split at h
      · exact absurd h (by simp)
      · simp only [construct_post] at h
        injection h with h2
        subst h2
        exact ⟨rfl, rfl⟩

/-- Witness for C10: the record built for `timedCard` against a detail
page containing an image still says text/no-media. -/
theorem claim_C10_witness :
    ((parse_post_data imgEnv demoNow timedCard []).built.getD default).post_type =
        "text" ∧
    ((parse_post_data imgEnv demoNow timedCard []).built.getD default).media_urls =
        ([] : List String) :=
  claim_C10.1 imgEnv demoNow timedCard []
    ((parse_post_data imgEnv demoNow timedCard []).built.getD default) (by rfl)

end Moltbook
